import Mathlib

/-!
Verification of the note-taking application backend (TypeScript sources under
src/backend/src) against its natural-language specification.

The embedding models:
* the Mongoose user document and its OTP instance methods (models/User.ts);
* the Mongoose note document (models/Note.ts);
* the auth controllers signup / verifyOTP / signin / verifySigninOTP /
  googleLogin / resendOTP (controllers/authController.ts);
* the notes controllers createNote / getNote / updateNote / deleteNote /
  togglePin / toggleArchive (controllers/notesController.ts);
* the error classes and the central error handler response shape
  (middleware/errorHandler.ts).

Time is milliseconds since the epoch, as `Nat` (JavaScript `Date.getTime()` /
`Date.now()`).  Random OTP codes and the outcome of sending an email are passed
in as explicit parameters.  Persisted state is threaded explicitly: each
controller returns the outcome together with the document store as it stands
after the save and delete calls the request performed.
-/

/-- The `otp` sub-document of the user schema (models/User.ts lines 13-19 and
92-113).  Mongoose defaults every field to `null`, so each field is optional;
`isUsed` defaults to `false` and `attempts` to `0`. -/
structure OTPData where
  code : Option String
  expiresAt : Option Nat
  isUsed : Bool
  attempts : Nat
  lastAttemptAt : Option Nat
deriving Repr, DecidableEq

/-- The `authProvider` enum of the user schema: one of the strings
`email` or `google`. -/
inductive AuthProvider where
  | email
  | google
deriving Repr, DecidableEq

/-- A persisted user document (models/User.ts).  `id` stands for the Mongo
`_id`; the whole `otp` object is optional to mirror `!this.otp` guards in the
instance methods. -/
structure UserDoc where
  id : Nat
  email : String
  password : Option String
  name : String
  profilePicture : Option String
  isEmailVerified : Bool
  authProvider : AuthProvider
  googleId : Option String
  otp : Option OTPData
  lastLoginAt : Option Nat
deriving Repr, DecidableEq

/-- `userSchema.methods.isOTPExpired` (User.ts lines 200-205): true when the
`otp` object or its `expiresAt` is missing, or when the current time is
strictly past `expiresAt` (`new Date() > this.otp.expiresAt`). -/
def UserDoc.isOTPExpired (u : UserDoc) (now : Nat) : Bool :=
  match u.otp with
  | none => true
  | some o =>
    match o.expiresAt with
    | none => true
    | some e => decide (e < now)

/-- `userSchema.methods.isOTPUsed` (User.ts lines 208-210):
`this.otp?.isUsed || false`. -/
def UserDoc.isOTPUsed (u : UserDoc) : Bool :=
  match u.otp with
  | none => false
  | some o => o.isUsed

/-- `userSchema.methods.verifyOTP` (User.ts lines 183-197): false when the
`otp` object or its code is missing, the OTP is expired, or the OTP is used;
otherwise compares the stored code with the candidate. -/
def UserDoc.verifyOTP (u : UserDoc) (now : Nat) (code : String) : Bool :=
  match u.otp with
  | none => false
  | some o =>
    match o.code with
    | none => false
    | some c =>
      if u.isOTPExpired now then false
      else if u.isOTPUsed then false
      else c == code

/-- Default OTP lifetime: `OTP_EXPIRY_MINUTES` defaults to 10 minutes
(User.ts line 167), in milliseconds. -/
def otpExpiryMs : Nat := 10 * 60 * 1000

/-- `userSchema.methods.generateOTP` (User.ts lines 161-180).  The random
numeric code is an explicit parameter; the method overwrites the whole `otp`
object with a fresh record: expiry ten minutes from now, unused, zero
attempts, `lastAttemptAt` stamped to now. -/
def UserDoc.generateOTP (u : UserDoc) (now : Nat) (code : String) : UserDoc :=
  { u with otp := some { code := some code, expiresAt := some (now + otpExpiryMs),
                         isUsed := false, attempts := 0, lastAttemptAt := some now } }

/-- `userSchema.methods.markOTPAsUsed` (User.ts lines 213-217). -/
def UserDoc.markOTPAsUsed (u : UserDoc) : UserDoc :=
  match u.otp with
  | none => u
  | some o => { u with otp := some { o with isUsed := true } }

/-- `userSchema.methods.incrementOTPAttempts` (User.ts lines 220-225):
bumps `attempts` and stamps `lastAttemptAt` whenever the `otp` object
exists. -/
def UserDoc.incrementOTPAttempts (u : UserDoc) (now : Nat) : UserDoc :=
  match u.otp with
  | none => u
  | some o => { u with otp := some { o with attempts := o.attempts + 1,
                                            lastAttemptAt := some now } }

/-- `userSchema.methods.clearOTP` (User.ts lines 228-236): resets the `otp`
object to one with every field undefined, `isUsed := false`,
`attempts := 0`. -/
def UserDoc.clearOTP (u : UserDoc) : UserDoc :=
  { u with otp := some { code := none, expiresAt := none, isUsed := false,
                         attempts := 0, lastAttemptAt := none } }

/-- The user document as serialized by the schema `toJSON` transform
(User.ts lines 121-128): `password`, `otp` and `__v` are deleted, every
other field is kept. -/
structure UserJSON where
  id : Nat
  email : String
  name : String
  profilePicture : Option String
  isEmailVerified : Bool
  authProvider : AuthProvider
  googleId : Option String
  lastLoginAt : Option Nat
deriving Repr, DecidableEq

/-- The `toJSON` transform of the user schema (User.ts lines 121-128). -/
def UserDoc.toJSON (u : UserDoc) : UserJSON :=
  { id := u.id, email := u.email, name := u.name,
    profilePicture := u.profilePicture, isEmailVerified := u.isEmailVerified,
    authProvider := u.authProvider, googleId := u.googleId,
    lastLoginAt := u.lastLoginAt }

/-- The domain errors the modelled auth controllers can throw, one constructor
per `throw` site (controllers/authController.ts).  `otpRateLimited` carries the
computed `remainingSeconds` (the `waitTime` reported in the message). -/
inductive AuthErr where
  | userAlreadyVerified
  | userExistsUnverified
  | emailSendFailed
  | userNotFound
  | emailAlreadyVerified
  | otpExpired
  | otpAlreadyUsed
  | invalidOTP
  | useGoogleLogin
  | emailNotVerified
  | otpRateLimited (remainingSeconds : Nat)
  | useEmailLogin
  | differentGoogleAccount
  | noOTPNeeded
deriving Repr, DecidableEq

/-- The JSON body the central error handler sends for an operational error
(middleware/errorHandler.ts, `sendErrorProd` lines 152-165 and `sendErrorDev`):
HTTP status, the `errorCode` field, and the `details` field when present. -/
structure ErrResponse where
  status : Nat
  errorCode : String
  details : Option String
deriving Repr, DecidableEq

/-- Maps each throw site to its response, following the error class used there
(middleware/errorHandler.ts lines 39-73):
`ValidationError(message, details)` hardcodes status 400 and errorCode
VALIDATION_ERROR, with the second constructor argument stored in `details`;
`AuthenticationError(message, errorCode)` is 401 with the given code;
`NotFoundError` 404; `ConflictError` 409; bare `AppError` keeps its code. -/
def errResponse : AuthErr → ErrResponse
  | .userAlreadyVerified => { status := 409, errorCode := "USER_ALREADY_VERIFIED", details := none }
  | .userExistsUnverified => { status := 409, errorCode := "USER_EXISTS_UNVERIFIED", details := none }
  | .emailSendFailed => { status := 500, errorCode := "EMAIL_SEND_FAILED", details := none }
  | .userNotFound => { status := 404, errorCode := "USER_NOT_FOUND", details := none }
  | .emailAlreadyVerified => { status := 400, errorCode := "VALIDATION_ERROR", details := some "EMAIL_ALREADY_VERIFIED" }
  | .otpExpired => { status := 400, errorCode := "VALIDATION_ERROR", details := some "OTP_EXPIRED" }
  | .otpAlreadyUsed => { status := 400, errorCode := "VALIDATION_ERROR", details := some "OTP_ALREADY_USED" }
  | .invalidOTP => { status := 400, errorCode := "VALIDATION_ERROR", details := some "INVALID_OTP" }
  | .useGoogleLogin => { status := 401, errorCode := "USE_GOOGLE_LOGIN", details := none }
  | .emailNotVerified => { status := 401, errorCode := "EMAIL_NOT_VERIFIED", details := none }
  | .otpRateLimited _ => { status := 400, errorCode := "VALIDATION_ERROR", details := some "OTP_RATE_LIMITED" }
  | .useEmailLogin => { status := 401, errorCode := "USE_EMAIL_LOGIN", details := none }
  | .differentGoogleAccount => { status := 401, errorCode := "DIFFERENT_GOOGLE_ACCOUNT", details := none }
  | .noOTPNeeded => { status := 400, errorCode := "VALIDATION_ERROR", details := some "NO_OTP_NEEDED" }

/-- Outcome of an auth request on one user document: the error thrown (if
any) together with the persisted user document after the request, which
reflects any `save` the handler performed before returning or throwing. -/
structure AuthOutcome where
  err : Option AuthErr
  user : Option UserDoc
deriving Repr, DecidableEq

/-- `POST /api/auth/verify-otp` (authController.ts lines 207-274) acting on
the result of `User.findOne` for the request email.  Checks: user exists,
email not already verified; then increments attempts, and in order checks
expired / already used / code mismatch (saving the incremented attempts in
each failure branch); on success marks the OTP used, sets
`isEmailVerified := true`, stamps `lastLoginAt`, clears the OTP and saves. -/
def AuthController.verifyOTP (u? : Option UserDoc) (now : Nat) (otp : String) :
    AuthOutcome :=
  match u? with
  | none => { err := some .userNotFound, user := none }
  | some u =>
    if u.isEmailVerified then
      { err := some .emailAlreadyVerified, user := some u }
    else
      let u1 := u.incrementOTPAttempts now
      if u1.isOTPExpired now then
        { err := some .otpExpired, user := some u1 }
      else if u1.isOTPUsed then
        { err := some .otpAlreadyUsed, user := some u1 }
      else if !(u1.verifyOTP now otp) then
        { err := some .invalidOTP, user := some u1 }
      else
        let u2 := { u1.markOTPAsUsed with isEmailVerified := true,
                                          lastLoginAt := some now }.clearOTP
        { err := none, user := some u2 }

/-- `POST /api/auth/verify-signin-otp` (authController.ts lines 338-401):
same OTP checks as verify-otp, but requires `isEmailVerified` instead of
forbidding it, and on success stamps `lastLoginAt` without touching
`isEmailVerified`. -/
def AuthController.verifySigninOTP (u? : Option UserDoc) (now : Nat) (otp : String) :
    AuthOutcome :=
  match u? with
  | none => { err := some .userNotFound, user := none }
  | some u =>
    if !u.isEmailVerified then
      { err := some .emailNotVerified, user := some u }
    else
      let u1 := u.incrementOTPAttempts now
      if u1.isOTPExpired now then
        { err := some .otpExpired, user := some u1 }
      else if u1.isOTPUsed then
        { err := some .otpAlreadyUsed, user := some u1 }
      else if !(u1.verifyOTP now otp) then
        { err := some .invalidOTP, user := some u1 }
      else
        let u2 := { u1.markOTPAsUsed with lastLoginAt := some now }.clearOTP
        { err := none, user := some u2 }

/-- The 30-second OTP cooldown window shared by signin and resend-otp
(authController.ts lines 302 and 505): `30 * 1000` milliseconds. -/
def thirtySecondsInMs : Nat := 30 * 1000

/-- `Math.ceil((thirtySecondsInMs - timeSinceLastOTP) / 1000)`
(authController.ts lines 305 and 508), on naturals. -/
def remainingSecondsOf (timeSinceLastOTP : Nat) : Nat :=
  (thirtySecondsInMs - timeSinceLastOTP + 999) / 1000

/-- `POST /api/auth/signin` (authController.ts lines 280-332): requires an
existing, email-provider, verified user; rejects with the rate limit when
`Date.now() - otp.lastAttemptAt < 30s`; otherwise generates a fresh OTP
(`code` parameter), saves, and sends the OTP email (`emailSent`
parameter; on failure the generated OTP is already persisted). -/
def AuthController.signin (u? : Option UserDoc) (now : Nat) (code : String)
    (emailSent : Bool) : AuthOutcome :=
  match u? with
  | none => { err := some .userNotFound, user := none }
  | some u =>
    if u.authProvider == .google then
      { err := some .useGoogleLogin, user := some u }
    else if !u.isEmailVerified then
      { err := some .emailNotVerified, user := some u }
    else
      let limited : Option Nat :=
        match u.otp with
        | none => none
        | some o =>
          match o.lastAttemptAt with
          | none => none
          | some t =>
            let timeSinceLastOTP := now - t
            if timeSinceLastOTP < thirtySecondsInMs then
              some (remainingSecondsOf timeSinceLastOTP)
            else none
      match limited with
      | some r => { err := some (.otpRateLimited r), user := some u }
      | none =>
        let u1 := u.generateOTP now code
        if emailSent then { err := none, user := some u1 }
        else { err := some .emailSendFailed, user := some u1 }

/-- `POST /api/auth/resend-otp` (authController.ts lines 488-543): requires an
existing, email-provider user (verified or not); applies the same 30-second
cooldown from `otp.lastAttemptAt`; otherwise regenerates and emails an OTP. -/
def AuthController.resendOTP (u? : Option UserDoc) (now : Nat) (code : String)
    (emailSent : Bool) : AuthOutcome :=
  match u? with
  | none => { err := some .userNotFound, user := none }
  | some u =>
    if u.authProvider == .google then
      { err := some .noOTPNeeded, user := some u }
    else
      let limited : Option Nat :=
        match u.otp with
        | none => none
        | some o =>
          match o.lastAttemptAt with
          | none => none
          | some t =>
            let timeSinceLastOTP := now - t
            if timeSinceLastOTP < thirtySecondsInMs then
              some (remainingSecondsOf timeSinceLastOTP)
            else none
      match limited with
      | some r => { err := some (.otpRateLimited r), user := some u }
      | none =>
        let u1 := u.generateOTP now code
        if emailSent then { err := none, user := some u1 }
        else { err := some .emailSendFailed, user := some u1 }

/-- The normalized identity claim extracted from a verified Google ID token
(utils/googleAuth.ts, `GoogleUserInfo`). -/
structure GoogleUserInfo where
  id : String
  email : String
  name : String
  picture : Option String
  verified_email : Bool
deriving Repr, DecidableEq

/-- `POST /api/auth/google-login` (authController.ts lines 407-482) acting on
the result of `User.findOne` for the token email.  Note the order in the
source: the mismatch check `user.googleId !== googleUser.id` (line 435) runs
before the adoption branch `if (... && !user.googleId)` (line 443), and an
unset `googleId` already fails the strict inequality against the token id, so
the adoption branch can only run when the two ids are equal. -/
def AuthController.googleLogin (u? : Option UserDoc) (g : GoogleUserInfo)
    (now : Nat) : AuthOutcome :=
  match u? with
  | none => { err := some .userNotFound, user := none }
  | some u =>
    if u.authProvider == .email then
      { err := some .useEmailLogin, user := some u }
    else if u.authProvider == .google && u.googleId != some g.id then
      { err := some .differentGoogleAccount, user := some u }
    else
      let u1 := if u.authProvider == .google && u.googleId == none then
                  { u with googleId := some g.id }
                else u
      let u2 := { u1 with name := g.name,
                          profilePicture := match g.picture with
                                            | some p => some p
                                            | none => u1.profilePicture,
                          isEmailVerified := g.verified_email,
                          lastLoginAt := some now }
      { err := none, user := some u2 }

/-- `User.findOne({ email })` over an explicit store of user documents. -/
def findUserByEmail (store : List UserDoc) (email : String) : Option UserDoc :=
  store.find? (fun u => u.email == email)

/-- `POST /api/auth/signup` (authController.ts lines 65-113) over an explicit
user store.  If a record with the email exists, conflicts by verification
state.  Otherwise creates an unverified email-provider record with a fresh
OTP, saves it, and sends the OTP email; if sending fails, the freshly created
record is deleted (`User.findByIdAndDelete(user._id)`) before the
EMAIL_SEND_FAILED error is thrown. -/
def AuthController.signup (store : List UserDoc) (email name : String)
    (newId : Nat) (now : Nat) (code : String) (emailSent : Bool) :
    Option AuthErr × List UserDoc :=
  match findUserByEmail store email with
  | some existing =>
    if existing.isEmailVerified then (some .userAlreadyVerified, store)
    else (some .userExistsUnverified, store)
  | none =>
    let newUser : UserDoc :=
      { id := newId, email := email, password := none, name := name,
        profilePicture := none, isEmailVerified := false,
        authProvider := .email, googleId := none, otp := none,
        lastLoginAt := none }
    let u := newUser.generateOTP now code
    let saved := store ++ [u]
    if emailSent then (none, saved)
    else (some .emailSendFailed, saved.filter (fun v => v.id != newId))

/-- A persisted note document (models/Note.ts).  `id` stands for the Mongo
`_id`, `userId` for the owner reference.  There is no schema hook relating
`isPinned` and `isArchived`. -/
structure NoteDoc where
  id : Nat
  title : String
  content : String
  userId : Nat
  tags : List String
  isPinned : Bool
  isArchived : Bool
deriving Repr, DecidableEq

/-- The domain errors of the modelled notes controllers: every miss is
a NotFoundError carrying the NOTE_NOT_FOUND code. -/
inductive NoteErr where
  | noteNotFound
deriving Repr, DecidableEq

/-- Response of the central error handler for a notes-controller error:
`NotFoundError` carries status 404 and its errorCode argument
(middleware/errorHandler.ts lines 57-61). -/
def noteErrResponse : NoteErr → ErrResponse
  | .noteNotFound => { status := 404, errorCode := "NOTE_NOT_FOUND", details := none }

/-- `Note.findOne({ _id: id, userId })` (notesController.ts lines 162-165 and
the identical queries in update/delete/pin/archive). -/
def noteFindOne (store : List NoteDoc) (id userId : Nat) : Option NoteDoc :=
  store.find? (fun n => n.id == id && n.userId == userId)

/-- `note.save()` after mutating a found document: replaces the document with
the given id in the store. -/
def noteSave (store : List NoteDoc) (n : NoteDoc) : List NoteDoc :=
  store.map (fun m => if m.id == n.id then n else m)

/-- Outcome of a notes request: the error (if any), the note in the response
body (if any), and the store after the request. -/
structure NoteOutcome where
  err : Option NoteErr
  note : Option NoteDoc
  store : List NoteDoc
deriving Repr, DecidableEq

/-- `POST /api/notes` (notesController.ts lines 30-66): creates a note owned
by the authenticated user with `isPinned := isPinned || false` and
`isArchived := false`, and saves it. -/
def NotesController.createNote (store : List NoteDoc) (userId newId : Nat)
    (title content : String) (tags : Option (List String))
    (isPinned : Option Bool) : NoteOutcome :=
  let note : NoteDoc :=
    { id := newId, title := title.trim, content := content.trim,
      userId := userId, tags := tags.getD [],
      isPinned := isPinned.getD false, isArchived := false }
  { err := none, note := some note, store := store ++ [note] }

/-- `GET /api/notes/:id` (notesController.ts lines 155-187): looks the note up
by `(id, userId)` and fails with NOTE_NOT_FOUND when the scoped query finds
nothing. -/
def NotesController.getNote (store : List NoteDoc) (userId id : Nat) :
    NoteOutcome :=
  match noteFindOne store id userId with
  | none => { err := some .noteNotFound, note := none, store := store }
  | some n => { err := none, note := some n, store := store }

/-- `PUT /api/notes/:id` (notesController.ts lines 193-247): looks the note up
by `(id, userId)`, then overwrites exactly the fields present in the request
body — including `isPinned` and `isArchived`, each copied independently with
no cross-check — and saves. -/
def NotesController.updateNote (store : List NoteDoc) (userId id : Nat)
    (title content : Option String) (tags : Option (List String))
    (isPinned isArchived : Option Bool) : NoteOutcome :=
  match noteFindOne store id userId with
  | none => { err := some .noteNotFound, note := none, store := store }
  | some n =>
    let n1 := { n with title := match title with
                                | some t => t.trim
                                | none => n.title,
                       content := match content with
                                  | some c => c.trim
                                  | none => n.content,
                       tags := tags.getD n.tags,
                       isPinned := isPinned.getD n.isPinned,
                       isArchived := isArchived.getD n.isArchived }
    { err := none, note := some n1, store := noteSave store n1 }

/-- `DELETE /api/notes/:id` (notesController.ts lines 253-277): ownership-
scoped lookup, then `Note.findByIdAndDelete(id)`. -/
def NotesController.deleteNote (store : List NoteDoc) (userId id : Nat) :
    NoteOutcome :=
  match noteFindOne store id userId with
  | none => { err := some .noteNotFound, note := none, store := store }
  | some _ =>
    { err := none, note := none, store := store.filter (fun m => m.id != id) }

/-- `POST /api/notes/:id/pin` (notesController.ts lines 283-320): ownership-
scoped lookup, then `note.isPinned = !note.isPinned` and save — with no check
of `isArchived`. -/
def NotesController.togglePin (store : List NoteDoc) (userId id : Nat) :
    NoteOutcome :=
  match noteFindOne store id userId with
  | none => { err := some .noteNotFound, note := none, store := store }
  | some n =>
    let n1 := { n with isPinned := !n.isPinned }
    { err := none, note := some n1, store := noteSave store n1 }

/-- `POST /api/notes/:id/archive` (notesController.ts lines 326-367):
ownership-scoped lookup, `note.isArchived = !note.isArchived`, and if the note
is now archived also `note.isPinned = false`, then save. -/
def NotesController.toggleArchive (store : List NoteDoc) (userId id : Nat) :
    NoteOutcome :=
  match noteFindOne store id userId with
  | none => { err := some .noteNotFound, note := none, store := store }
  | some n =>
    let n1 := { n with isArchived := !n.isArchived }
    let n2 := if n1.isArchived then { n1 with isPinned := false } else n1
    { err := none, note := some n2, store := noteSave store n2 }

/-- Base email-mode user fixture used to instantiate witnesses and
counterexamples. -/
def baseUser : UserDoc :=
  { id := 1, email := "ann@example.com", password := none, name := "Ann",
    profilePicture := none, isEmailVerified := false, authProvider := .email,
    googleId := none, otp := none, lastLoginAt := none }

/-- C10: the toJSON transform deletes password, otp and __v, so the JSON
serialization of a user record is identical for every pair of values of its
password and otp fields, and no serialized response reveals the password hash
or any part of the OTP sub-record. -/
theorem c10_user_serialization_independent_of_secrets :
    ∀ (u : UserDoc) (p1 p2 : Option String) (o1 o2 : Option OTPData),
      UserDoc.toJSON { u with password := p1, otp := o1 } =
        UserDoc.toJSON { u with password := p2, otp := o2 } := by
  intro u p1 p2 o1 o2
  rfl

/-- Whether the user has a stored OTP code: the otp object exists and its
code field is set (the negation of the first guard of
userSchema.methods.verifyOTP). -/
def hasStoredOTPCode (u : UserDoc) : Bool :=
  match u.otp with
  | none => false
  | some o => o.code.isSome

/-- The failure condition of verifyOTP exactly as claim C8 words it: no
stored OTP code, or current time strictly after expiresAt, or OTP marked
used, or stored code different from the candidate. -/
def claimedVerifyFails (u : UserDoc) (now : Nat) (code : String) : Bool :=
  !hasStoredOTPCode u ||
  (match u.otp with
   | none => false
   | some o =>
     match o.expiresAt with
     | none => false
     | some e => decide (e < now)) ||
  u.isOTPUsed ||
  (match u.otp with
   | none => false
   | some o =>
     match o.code with
     | none => false
     | some c => c != code)

/-- The failure condition of verifyOTP as amended: a stored OTP whose
expiresAt is missing also fails (isOTPExpired treats a missing expiry as
expired). -/
def amendedVerifyFails (u : UserDoc) (now : Nat) (code : String) : Bool :=
  !hasStoredOTPCode u ||
  (match u.otp with
   | none => true
   | some o =>
     match o.expiresAt with
     | none => true
     | some e => decide (e < now)) ||
  u.isOTPUsed ||
  (match u.otp with
   | none => true
   | some o =>
     match o.code with
     | none => true
     | some c => c != code)

/-- C8 counterexample: a user whose stored OTP has a code but no expiresAt.
verifyOTP returns false (isOTPExpired treats the missing expiry as expired),
yet none of the four failure conditions listed by the claim holds, so the
claimed if-and-only-if fails at this state. -/
theorem c8_counterexample_missing_expiry :
    UserDoc.verifyOTP
      { baseUser with
        otp := some { code := some "111111", expiresAt := none, isUsed := false,
                      attempts := 0, lastAttemptAt := none } } 0 "111111" = false ∧
    claimedVerifyFails
      { baseUser with
        otp := some { code := some "111111", expiresAt := none, isUsed := false,
                      attempts := 0, lastAttemptAt := none } } 0 "111111" = false := by
  constructor
  · rfl
  · rfl

/-- C8 amended: verifyOTP(user, code) returns false if and only if the user
has no stored OTP code, or the stored OTP has no expiresAt, or the current
time is strictly after expiresAt, or the OTP is marked used, or the stored
code differs from the candidate; in all other cases it returns true. -/
theorem c8_verifyOTP_false_iff_amended (u : UserDoc) (now : Nat) (code : String) :
    u.verifyOTP now code = false ↔ amendedVerifyFails u now code = true := by
  cases hu : u.otp with
  | none =>
    simp [UserDoc.verifyOTP, amendedVerifyFails, hasStoredOTPCode, hu]
  | some o =>
    cases hc : o.code with
    | none =>
      simp [UserDoc.verifyOTP, amendedVerifyFails, hasStoredOTPCode, hu, hc]
    | some c =>
      cases he : o.expiresAt with
      | none =>
        simp [UserDoc.verifyOTP, amendedVerifyFails, hasStoredOTPCode,
              UserDoc.isOTPExpired, hu, hc, he]
      | some e =>
        by_cases hlt : e < now
        · simp [UserDoc.verifyOTP, amendedVerifyFails, hasStoredOTPCode,
                UserDoc.isOTPExpired, hu, hc, he, hlt]
        · by_cases hused : o.isUsed
          · simp [UserDoc.verifyOTP, amendedVerifyFails, hasStoredOTPCode,
                  UserDoc.isOTPExpired, UserDoc.isOTPUsed, hu, hc, he, hlt, hused]
          · by_cases heq : c = code
            · simp [UserDoc.verifyOTP, amendedVerifyFails, hasStoredOTPCode,
                    UserDoc.isOTPExpired, UserDoc.isOTPUsed, hu, hc, he, hlt, hused, heq]
            · simp [UserDoc.verifyOTP, amendedVerifyFails, hasStoredOTPCode,
                    UserDoc.isOTPExpired, UserDoc.isOTPUsed, hu, hc, he, hlt, hused, heq]

/-- C9 counterexample: when the newly generated code happens to equal the
previously held one (both parameters of generateOTP are random six-digit
strings, so the pair can repeat), the old code still verifies after the
regeneration — the previous code is not invalidated for that pair. -/
theorem c9_counterexample_equal_codes :
    UserDoc.verifyOTP
      ((baseUser.generateOTP 0 "123456").generateOTP 1000 "123456")
      1000 "123456" = true := by
  rfl

/-- C9 amended: generating a new OTP invalidates the previous code whenever
the two generated codes are distinct: the old model-level check returns
false, and a verify-signin-otp request with the old code fails with
INVALID_OTP, or with OTP_EXPIRED once the new expiry has also passed. -/
theorem c9_generate_invalidates_distinct_code (u : UserDoc) (t now : Nat)
    (c1 c2 : String) (hne : c1 ≠ c2) (hver : u.isEmailVerified = true) :
    (u.generateOTP t c2).verifyOTP now c1 = false ∧
    ((AuthController.verifySigninOTP (some (u.generateOTP t c2)) now c1).err =
        some AuthErr.invalidOTP ∨
     (AuthController.verifySigninOTP (some (u.generateOTP t c2)) now c1).err =
        some AuthErr.otpExpired) := by
  have hbeq : (c2 == c1) = false := by
    simp [BEq.beq]
    exact fun h => hne h.symm
  by_cases hexp : t + otpExpiryMs < now
  · constructor
    · simp [UserDoc.generateOTP, UserDoc.verifyOTP, UserDoc.isOTPExpired, hexp]
    · right
      simp [AuthController.verifySigninOTP, UserDoc.generateOTP, hver,
            UserDoc.incrementOTPAttempts, UserDoc.isOTPExpired, hexp]
  · constructor
    · simp [UserDoc.generateOTP, UserDoc.verifyOTP, UserDoc.isOTPExpired,
            UserDoc.isOTPUsed, hexp, hbeq]
    · left
      simp [AuthController.verifySigninOTP, UserDoc.generateOTP, hver,
            UserDoc.incrementOTPAttempts, UserDoc.isOTPExpired, UserDoc.isOTPUsed,
            UserDoc.verifyOTP, hexp, hbeq]

/-- C9 amended witness: concrete distinct codes at a concrete time. -/
theorem c9_generate_invalidates_distinct_code_witness :
    UserDoc.verifyOTP
      (({ baseUser with isEmailVerified := true } : UserDoc).generateOTP 0 "222222")
      5 "111111" = false ∧
    ((AuthController.verifySigninOTP
        (some (({ baseUser with isEmailVerified := true } : UserDoc).generateOTP 0 "222222"))
        5 "111111").err = some AuthErr.invalidOTP ∨
     (AuthController.verifySigninOTP
        (some (({ baseUser with isEmailVerified := true } : UserDoc).generateOTP 0 "222222"))
        5 "111111").err = some AuthErr.otpExpired) :=
  c9_generate_invalidates_distinct_code { baseUser with isEmailVerified := true }
    0 5 "111111" "222222" (by decide) (by rfl)

/-- Archived note fixture owned by user 7, used for the C4 counterexample. -/
def archivedNote : NoteDoc :=
  { id := 1, title := "T", content := "C", userId := 7, tags := [],
    isPinned := false, isArchived := true }

/-- C4 counterexample: togglePin performs no isArchived check, so pinning an
archived note succeeds and yields a note that is simultaneously archived and
pinned. -/
theorem c4_counterexample_pin_archived_note :
    (NotesController.togglePin [archivedNote] 7 1).err = none ∧
    ((NotesController.togglePin [archivedNote] 7 1).note.map
        (fun n => n.isPinned && n.isArchived)) = some true := by
  constructor
  · rfl
  · rfl

/-- C4 amended: toggleArchive does force isPinned to false whenever the
resulting note is archived, and createNote always creates an unarchived note;
but updateNote and togglePin do not enforce the invariant, so it does not
hold after every note operation. -/
theorem c4_archive_unpins_for_toggleArchive_and_create :
    (∀ (store : List NoteDoc) (uid id : Nat) (n : NoteDoc),
        (NotesController.toggleArchive store uid id).note = some n →
        n.isArchived = true → n.isPinned = false) ∧
    (∀ (store : List NoteDoc) (uid newId : Nat) (title content : String)
        (tags : Option (List String)) (isPinned : Option Bool) (n : NoteDoc),
        (NotesController.createNote store uid newId title content tags isPinned).note =
            some n →
        n.isArchived = false) := by
  constructor
  · intro store uid id n hn harch
    unfold NotesController.toggleArchive at hn
    cases hfind : noteFindOne store id uid with
    | none => rw [hfind] at hn; simp at hn
    | some m =>
      rw [hfind] at hn
      simp at hn
      by_cases hb : m.isArchived
      · subst hn
        simp [hb] at harch
      · subst hn
        simp [hb]
  · intro store uid newId title content tags isPinned n hn
    unfold NotesController.createNote at hn
    simp at hn
    subst hn
    rfl

/-- C4 amended witness: archiving the concrete pinned note leaves it
unpinned, and a concretely created note starts unarchived. -/
theorem c4_archive_unpins_witness :
    ({ archivedNote with isPinned := false, isArchived := true } : NoteDoc).isPinned = false ∧
    ({ id := 2, title := "T".trim, content := "C".trim, userId := 7, tags := [],
       isPinned := true, isArchived := false } : NoteDoc).isArchived = false := by
  constructor
  · exact c4_archive_unpins_for_toggleArchive_and_create.1
      [{ archivedNote with isPinned := true, isArchived := false }] 7 1
      { archivedNote with isPinned := false, isArchived := true } (by rfl) (by rfl)
  · exact c4_archive_unpins_for_toggleArchive_and_create.2
      [] 7 2 "T" "C" (some []) (some true)
      { id := 2, title := "T".trim, content := "C".trim, userId := 7, tags := [],
        isPinned := true, isArchived := false } (by rfl)

/-- C3: for a google-mode record whose googleId is unset, a google-login
request with a valid token for that email does NOT succeed or adopt the
token id: the strict mismatch check (user.googleId !== googleUser.id,
authController.ts line 435) already fails for an unset googleId and throws
DIFFERENT_GOOGLE_ACCOUNT, leaving the record unchanged; the adoption branch
at lines 443-445 is unreachable. -/
theorem c3_google_login_unset_id_rejected (u : UserDoc) (g : GoogleUserInfo)
    (now : Nat) (hprov : u.authProvider = AuthProvider.google)
    (hgid : u.googleId = none) :
    AuthController.googleLogin (some u) g now =
      { err := some AuthErr.differentGoogleAccount, user := some u } := by
  simp [AuthController.googleLogin, hprov, hgid]

/-- A google-mode user record whose external Google id was never stored. -/
def googleUserNoId : UserDoc :=
  { baseUser with authProvider := AuthProvider.google, googleId := none }

/-- A verified Google identity claim for the same email as googleUserNoId. -/
def googleTokenInfo : GoogleUserInfo :=
  { id := "gid-1", email := "ann@example.com", name := "Ann",
    picture := none, verified_email := true }

/-- C3 witness: concrete google-mode record with unset googleId. -/
theorem c3_google_login_unset_id_rejected_witness :
    AuthController.googleLogin (some googleUserNoId) googleTokenInfo 0 =
      { err := some AuthErr.differentGoogleAccount, user := some googleUserNoId } :=
  c3_google_login_unset_id_rejected googleUserNoId googleTokenInfo 0 rfl rfl

/-- An unverified email-mode user holding an OTP that expired at time 1000. -/
def expiredOTPUser : UserDoc :=
  { baseUser with
    otp := some { code := some "123456", expiresAt := some 1000, isUsed := false,
                  attempts := 0, lastAttemptAt := some 0 } }

/-- C1 counterexample: a verify-otp request at time 2000 with the correct
code for an OTP that expired at time 1000.  The branch throws
ValidationError with OTP_EXPIRED as its second argument, but the
ValidationError constructor stores that argument in details and hardcodes
errorCode to VALIDATION_ERROR, so the errorCode field of the response is not
OTP_EXPIRED. -/
theorem c1_counterexample_errorCode_is_generic :
    ((AuthController.verifyOTP (some expiredOTPUser) 2000 "123456").err.map errResponse) =
      some { status := 400, errorCode := "VALIDATION_ERROR", details := some "OTP_EXPIRED" } ∧
    ("VALIDATION_ERROR" : String) ≠ "OTP_EXPIRED" := by
  constructor
  · rfl
  · decide

/-- C1 amended: a verify-otp (or verify-signin-otp) request whose stored OTP
is past its expiresAt fails on the OTP_EXPIRED branch, and the response of
every ValidationError-raised branch (OTP_EXPIRED, OTP_ALREADY_USED,
INVALID_OTP, OTP_RATE_LIMITED) carries the branch code in the details field
with errorCode fixed to VALIDATION_ERROR; branches raised through the other
error classes carry their code in the errorCode field itself. -/
theorem c1_domain_error_codes (u v : UserDoc) (o p : OTPData) (now : Nat)
    (otp : String) (e f : Nat)
    (hver : u.isEmailVerified = false) (ho : u.otp = some o)
    (he : o.expiresAt = some e) (hlt : e < now)
    (hvver : v.isEmailVerified = true) (hv : v.otp = some p)
    (hf : p.expiresAt = some f) (hflt : f < now) :
    (AuthController.verifyOTP (some u) now otp).err = some AuthErr.otpExpired ∧
    (AuthController.verifySigninOTP (some v) now otp).err = some AuthErr.otpExpired ∧
    errResponse AuthErr.otpExpired =
      { status := 400, errorCode := "VALIDATION_ERROR", details := some "OTP_EXPIRED" } ∧
    errResponse AuthErr.otpAlreadyUsed =
      { status := 400, errorCode := "VALIDATION_ERROR", details := some "OTP_ALREADY_USED" } ∧
    errResponse AuthErr.invalidOTP =
      { status := 400, errorCode := "VALIDATION_ERROR", details := some "INVALID_OTP" } ∧
    (∀ r, errResponse (AuthErr.otpRateLimited r) =
      { status := 400, errorCode := "VALIDATION_ERROR", details := some "OTP_RATE_LIMITED" }) ∧
    errResponse AuthErr.useGoogleLogin =
      { status := 401, errorCode := "USE_GOOGLE_LOGIN", details := none } ∧
    errResponse AuthErr.userNotFound =
      { status := 404, errorCode := "USER_NOT_FOUND", details := none } := by
  refine ⟨?_, ?_, rfl, rfl, rfl, fun r => rfl, rfl, rfl⟩
  · simp [AuthController.verifyOTP, hver, UserDoc.incrementOTPAttempts, ho,
          UserDoc.isOTPExpired, he, hlt]
  · simp [AuthController.verifySigninOTP, hvver, UserDoc.incrementOTPAttempts, hv,
          UserDoc.isOTPExpired, hf, hflt]

/-- C1 witness: the concrete expired-OTP user and its verified twin at time
2000. -/
theorem c1_domain_error_codes_witness :
    (AuthController.verifyOTP (some expiredOTPUser) 2000 "123456").err =
        some AuthErr.otpExpired ∧
    (AuthController.verifySigninOTP
        (some { expiredOTPUser with isEmailVerified := true }) 2000 "123456").err =
        some AuthErr.otpExpired ∧
    errResponse AuthErr.otpExpired =
      { status := 400, errorCode := "VALIDATION_ERROR", details := some "OTP_EXPIRED" } ∧
    errResponse AuthErr.otpAlreadyUsed =
      { status := 400, errorCode := "VALIDATION_ERROR", details := some "OTP_ALREADY_USED" } ∧
    errResponse AuthErr.invalidOTP =
      { status := 400, errorCode := "VALIDATION_ERROR", details := some "INVALID_OTP" } ∧
    (∀ r, errResponse (AuthErr.otpRateLimited r) =
      { status := 400, errorCode := "VALIDATION_ERROR", details := some "OTP_RATE_LIMITED" }) ∧
    errResponse AuthErr.useGoogleLogin =
      { status := 401, errorCode := "USE_GOOGLE_LOGIN", details := none } ∧
    errResponse AuthErr.userNotFound =
      { status := 404, errorCode := "USER_NOT_FOUND", details := none } :=
  c1_domain_error_codes expiredOTPUser { expiredOTPUser with isEmailVerified := true }
    { code := some "123456", expiresAt := some 1000, isUsed := false,
      attempts := 0, lastAttemptAt := some 0 }
    { code := some "123456", expiresAt := some 1000, isUsed := false,
      attempts := 0, lastAttemptAt := some 0 }
    2000 "123456" 1000 1000 rfl rfl rfl (by decide) rfl rfl rfl (by decide)

/-- incrementOTPAttempts only touches the otp sub-document. -/
theorem isEmailVerified_incrementOTPAttempts (u : UserDoc) (now : Nat) :
    (u.incrementOTPAttempts now).isEmailVerified = u.isEmailVerified := by
  unfold UserDoc.incrementOTPAttempts
  cases u.otp <;> rfl

/-- markOTPAsUsed only touches the otp sub-document. -/
theorem isEmailVerified_markOTPAsUsed (u : UserDoc) :
    u.markOTPAsUsed.isEmailVerified = u.isEmailVerified := by
  unfold UserDoc.markOTPAsUsed
  cases u.otp <;> rfl

/-- Shape of the persisted user after a successful verify-otp request: the
email is verified and the OTP object has been cleared (code, expiresAt and
lastAttemptAt all unset, isUsed false). -/
theorem verifyOTP_success_shape (u u2 : UserDoc) (now : Nat) (otp : String)
    (h : AuthController.verifyOTP (some u) now otp = { err := none, user := some u2 }) :
    u2.isEmailVerified = true ∧
    u2.otp = some { code := none, expiresAt := none, isUsed := false,
                    attempts := 0, lastAttemptAt := none } := by
  unfold AuthController.verifyOTP at h
  by_cases hv : u.isEmailVerified
  · simp [hv] at h
  · simp only [hv, Bool.false_eq_true, if_false] at h
    by_cases hexp : (u.incrementOTPAttempts now).isOTPExpired now
    · simp [hexp] at h
    · by_cases hused : (u.incrementOTPAttempts now).isOTPUsed
      · simp [hexp, hused] at h
      · by_cases hok : (u.incrementOTPAttempts now).verifyOTP now otp
        · simp only [hexp, hused, hok, Bool.not_true, Bool.false_eq_true, if_false,
                     if_true, AuthOutcome.mk.injEq, Option.some.injEq] at h
          obtain ⟨-, h2⟩ := h
          subst h2
          exact ⟨rfl, rfl⟩
        · simp [hexp, hused, hok] at h

/-- Shape of the persisted user after a successful verify-signin-otp request:
the verification flag is untouched and the OTP object has been cleared. -/
theorem verifySigninOTP_success_shape (u u2 : UserDoc) (now : Nat) (otp : String)
    (h : AuthController.verifySigninOTP (some u) now otp = { err := none, user := some u2 }) :
    u2.isEmailVerified = u.isEmailVerified ∧
    u2.otp = some { code := none, expiresAt := none, isUsed := false,
                    attempts := 0, lastAttemptAt := none } := by
  unfold AuthController.verifySigninOTP at h
  by_cases hv : u.isEmailVerified
  · simp only [hv, Bool.not_true, Bool.false_eq_true, if_false] at h
    by_cases hexp : (u.incrementOTPAttempts now).isOTPExpired now
    · simp [hexp] at h
    · by_cases hused : (u.incrementOTPAttempts now).isOTPUsed
      · simp [hexp, hused] at h
      · by_cases hok : (u.incrementOTPAttempts now).verifyOTP now otp
        · simp only [hexp, hused, hok, Bool.not_true, Bool.false_eq_true, if_false,
                     if_true, AuthOutcome.mk.injEq, Option.some.injEq] at h
          obtain ⟨-, h2⟩ := h
          subst h2
          exact ⟨(isEmailVerified_markOTPAsUsed (u.incrementOTPAttempts now)).trans
                   (isEmailVerified_incrementOTPAttempts u now), rfl⟩
        · simp [hexp, hused, hok] at h
  · simp [hv] at h

/-- An unverified email-mode user holding a fresh, valid OTP 654321 that
expires at time 1000. -/
def freshOTPUser : UserDoc :=
  { baseUser with
    otp := some { code := some "654321", expiresAt := some 1000, isUsed := false,
                  attempts := 0, lastAttemptAt := some 0 } }

/-- C2 counterexample: a successful verify-otp at time 500 with code 654321,
then a second verification with the same code at time 600.  The second
request fails, but with EMAIL_ALREADY_VERIFIED on the verify-otp route and
OTP_EXPIRED on the verify-signin-otp route — never OTP_ALREADY_USED, because
the success path cleared the OTP, including its isUsed flag and expiry. -/
theorem c2_counterexample_replay_error_is_not_already_used :
    (AuthController.verifyOTP (some freshOTPUser) 500 "654321").err = none ∧
    ((AuthController.verifyOTP (some freshOTPUser) 500 "654321").user.map
        (fun u2 => (AuthController.verifyOTP (some u2) 600 "654321").err)) =
      some (some AuthErr.emailAlreadyVerified) ∧
    ((AuthController.verifyOTP (some freshOTPUser) 500 "654321").user.map
        (fun u2 => (AuthController.verifySigninOTP (some u2) 600 "654321").err)) =
      some (some AuthErr.otpExpired) ∧
    AuthErr.emailAlreadyVerified ≠ AuthErr.otpAlreadyUsed ∧
    AuthErr.otpExpired ≠ AuthErr.otpAlreadyUsed := by
  refine ⟨by decide, by decide, by decide, by decide, by decide⟩

/-- C2 amended: after a successful verify-otp (or verify-signin-otp) request,
a second verification request with the same (or any) code fails, but with
EMAIL_ALREADY_VERIFIED on the verify-otp route and OTP_EXPIRED on the
verify-signin-otp route: the success path cleared the whole OTP object, so
the OTP_ALREADY_USED branch is not the one that fires. -/
theorem c2_replay_fails_with_other_codes (u u2 v v2 : UserDoc)
    (now now2 : Nat) (code code2 : String)
    (h : AuthController.verifyOTP (some u) now code = { err := none, user := some u2 })
    (hs : AuthController.verifySigninOTP (some v) now code =
        { err := none, user := some v2 })
    (hvver : v.isEmailVerified = true) :
    (AuthController.verifyOTP (some u2) now2 code2).err =
        some AuthErr.emailAlreadyVerified ∧
    (AuthController.verifySigninOTP (some u2) now2 code2).err =
        some AuthErr.otpExpired ∧
    (AuthController.verifyOTP (some v2) now2 code2).err =
        some AuthErr.emailAlreadyVerified ∧
    (AuthController.verifySigninOTP (some v2) now2 code2).err =
        some AuthErr.otpExpired := by
  obtain ⟨hver2, hotp2⟩ := verifyOTP_success_shape u u2 now code h
  obtain ⟨hverv, hotpv⟩ := verifySigninOTP_success_shape v v2 now code hs
  rw [hvver] at hverv
  refine ⟨?_, ?_, ?_, ?_⟩
  · simp [AuthController.verifyOTP, hver2]
  · simp [AuthController.verifySigninOTP, hver2, UserDoc.incrementOTPAttempts,
          hotp2, UserDoc.isOTPExpired]
  · simp [AuthController.verifyOTP, hverv]
  · simp [AuthController.verifySigninOTP, hverv, UserDoc.incrementOTPAttempts,
          hotpv, UserDoc.isOTPExpired]

/-- The persisted user after the successful verify-otp request of the C2
scenario: verified, lastLoginAt stamped, OTP cleared. -/
def freshOTPUserAfter : UserDoc :=
  { baseUser with
    isEmailVerified := true,
    lastLoginAt := some 500,
    otp := some { code := none, expiresAt := none, isUsed := false,
                  attempts := 0, lastAttemptAt := none } }

/-- C2 witness: the concrete post-success users of both verification routes
at time 600 with the original code. -/
theorem c2_replay_fails_with_other_codes_witness :
    (AuthController.verifyOTP (some freshOTPUserAfter) 600 "654321").err =
        some AuthErr.emailAlreadyVerified ∧
    (AuthController.verifySigninOTP (some freshOTPUserAfter) 600 "654321").err =
        some AuthErr.otpExpired ∧
    (AuthController.verifyOTP (some freshOTPUserAfter) 600 "654321").err =
        some AuthErr.emailAlreadyVerified ∧
    (AuthController.verifySigninOTP (some freshOTPUserAfter) 600 "654321").err =
        some AuthErr.otpExpired :=
  c2_replay_fails_with_other_codes freshOTPUser freshOTPUserAfter
    { freshOTPUser with isEmailVerified := true } freshOTPUserAfter
    500 600 "654321" "654321" (by decide) (by decide) (by decide)

/-- When note ids are unique, the ownership-scoped query of the notes
controllers returns nothing for a note owned by a different user. -/
theorem noteFindOne_none_of_other_owner (store : List NoteDoc) (nb : NoteDoc)
    (A : Nat) (hids : (store.map NoteDoc.id).Nodup) (hmem : nb ∈ store)
    (howner : nb.userId ≠ A) : noteFindOne store nb.id A = none := by
  unfold noteFindOne
  rw [List.find?_eq_none]
  intro m hm hcond
  simp only [Bool.and_eq_true, beq_iff_eq] at hcond
  obtain ⟨hid, huid⟩ := hcond
  have : m = nb := List.inj_on_of_nodup_map hids hm hmem hid
  subst this
  exact howner huid

/-- The ownership-scoped query also returns nothing for an id that no note in
the store carries. -/
theorem noteFindOne_none_of_fresh_id (store : List NoteDoc) (idq A : Nat)
    (hfresh : ∀ m ∈ store, m.id ≠ idq) : noteFindOne store idq A = none := by
  unfold noteFindOne
  rw [List.find?_eq_none]
  intro m hm hcond
  simp only [Bool.and_eq_true, beq_iff_eq] at hcond
  exact hfresh m hm hcond.1

/-- C5: for distinct users A and B and a note owned by B, every fetch,
update, delete, pin-toggle and archive-toggle request issued by A for that
note id fails with NOTE_NOT_FOUND and leaves the store unchanged — the same
response a nonexistent note id yields — and the NOTE_NOT_FOUND response has
status 404, never 403. -/
theorem c5_cross_user_access_masked_as_not_found (store : List NoteDoc)
    (nb : NoteDoc) (A freshId : Nat) (title content : Option String)
    (tags : Option (List String)) (isPinned isArchived : Option Bool)
    (hids : (store.map NoteDoc.id).Nodup) (hmem : nb ∈ store)
    (howner : nb.userId ≠ A) (hfresh : ∀ m ∈ store, m.id ≠ freshId) :
    NotesController.getNote store A nb.id =
      { err := some NoteErr.noteNotFound, note := none, store := store } ∧
    NotesController.updateNote store A nb.id title content tags isPinned isArchived =
      { err := some NoteErr.noteNotFound, note := none, store := store } ∧
    NotesController.deleteNote store A nb.id =
      { err := some NoteErr.noteNotFound, note := none, store := store } ∧
    NotesController.togglePin store A nb.id =
      { err := some NoteErr.noteNotFound, note := none, store := store } ∧
    NotesController.toggleArchive store A nb.id =
      { err := some NoteErr.noteNotFound, note := none, store := store } ∧
    NotesController.getNote store A freshId =
      { err := some NoteErr.noteNotFound, note := none, store := store } ∧
    noteErrResponse NoteErr.noteNotFound =
      { status := 404, errorCode := "NOTE_NOT_FOUND", details := none } ∧
    (noteErrResponse NoteErr.noteNotFound).status ≠ 403 := by
  have hq := noteFindOne_none_of_other_owner store nb A hids hmem howner
  have hq2 := noteFindOne_none_of_fresh_id store freshId A hfresh
  refine ⟨?_, ?_, ?_, ?_, ?_, ?_, rfl, by decide⟩
  · simp [NotesController.getNote, hq]
  · simp [NotesController.updateNote, hq]
  · simp [NotesController.deleteNote, hq]
  · simp [NotesController.togglePin, hq]
  · simp [NotesController.toggleArchive, hq]
  · simp [NotesController.getNote, hq2]

/-- Note fixture owned by user 2 for the C5 witness. -/
def noteOfUserTwo : NoteDoc :=
  { id := 10, title := "secret", content := "of B", userId := 2, tags := [],
    isPinned := false, isArchived := false }

/-- C5 witness: user 1 requesting the note of user 2 (id 10) and a
nonexistent id 99 in a one-note store. -/
theorem c5_cross_user_access_masked_as_not_found_witness :
    NotesController.getNote [noteOfUserTwo] 1 10 =
      { err := some NoteErr.noteNotFound, note := none, store := [noteOfUserTwo] } ∧
    NotesController.updateNote [noteOfUserTwo] 1 10 (some "x") none none
        (some true) (some true) =
      { err := some NoteErr.noteNotFound, note := none, store := [noteOfUserTwo] } ∧
    NotesController.deleteNote [noteOfUserTwo] 1 10 =
      { err := some NoteErr.noteNotFound, note := none, store := [noteOfUserTwo] } ∧
    NotesController.togglePin [noteOfUserTwo] 1 10 =
      { err := some NoteErr.noteNotFound, note := none, store := [noteOfUserTwo] } ∧
    NotesController.toggleArchive [noteOfUserTwo] 1 10 =
      { err := some NoteErr.noteNotFound, note := none, store := [noteOfUserTwo] } ∧
    NotesController.getNote [noteOfUserTwo] 1 99 =
      { err := some NoteErr.noteNotFound, note := none, store := [noteOfUserTwo] } ∧
    noteErrResponse NoteErr.noteNotFound =
      { status := 404, errorCode := "NOTE_NOT_FOUND", details := none } ∧
    (noteErrResponse NoteErr.noteNotFound).status ≠ 403 :=
  c5_cross_user_access_masked_as_not_found [noteOfUserTwo] noteOfUserTwo 1 99
    (some "x") none none (some true) (some true)
    (by decide) (by decide) (by decide) (by decide)

/-- C6: when the user record did not exist and the record id is fresh, a
signup whose OTP email send fails deletes the newly created record before
returning EMAIL_SEND_FAILED, leaving the credential store exactly as it was;
when the send succeeds the store gains exactly the new record. -/
theorem c6_signup_rolls_back_on_email_failure (store : List UserDoc)
    (email name : String) (newId now : Nat) (code : String)
    (hnew : findUserByEmail store email = none)
    (hid : ∀ v ∈ store, v.id ≠ newId) :
    AuthController.signup store email name newId now code false =
      (some AuthErr.emailSendFailed, store) ∧
    AuthController.signup store email name newId now code true =
      (none,
       store ++ [UserDoc.generateOTP
         { id := newId, email := email, password := none, name := name,
           profilePicture := none, isEmailVerified := false,
           authProvider := AuthProvider.email, googleId := none, otp := none,
           lastLoginAt := none } now code]) := by
  constructor
  · unfold AuthController.signup
    rw [hnew]
    simp only [if_neg Bool.false_ne_true, Prod.mk.injEq, List.filter_append]
    refine ⟨trivial, ?_⟩
    have h1 : store.filter (fun v => v.id != newId) = store := by
      rw [List.filter_eq_self]
      intro v hv
      simpa using hid v hv
    have h2 : [UserDoc.generateOTP
        { id := newId, email := email, password := none, name := name,
          profilePicture := none, isEmailVerified := false,
          authProvider := AuthProvider.email, googleId := none, otp := none,
          lastLoginAt := none } now code].filter (fun v => v.id != newId) = [] := by
      simp [UserDoc.generateOTP]
    rw [h1, h2, List.append_nil]
  · unfold AuthController.signup
    rw [hnew]
    simp

/-- C6 witness: signup for a fresh email over a one-user store. -/
theorem c6_signup_rolls_back_on_email_failure_witness :
    AuthController.signup [baseUser] "bob@example.com" "Bob" 2 0 "123456" false =
      (some AuthErr.emailSendFailed, [baseUser]) ∧
    AuthController.signup [baseUser] "bob@example.com" "Bob" 2 0 "123456" true =
      (none,
       [baseUser] ++ [UserDoc.generateOTP
         { id := 2, email := "bob@example.com", password := none, name := "Bob",
           profilePicture := none, isEmailVerified := false,
           authProvider := AuthProvider.email, googleId := none, otp := none,
           lastLoginAt := none } 0 "123456"]) :=
  c6_signup_rolls_back_on_email_failure [baseUser] "bob@example.com" "Bob" 2 0
    "123456" (by decide) (by decide)

/-- C7: signin and resend-otp enforce one shared 30-second cooldown measured
from otp.lastAttemptAt: whenever fewer than 30 seconds have elapsed, both
requests fail with OTP_RATE_LIMITED carrying the same positive number of
remaining seconds; and whichever of the two paths generates an OTP stamps
lastAttemptAt to the generation time, so after either path generates, the
other path is rate-limited for the next 30 seconds. -/
theorem c7_shared_thirty_second_cooldown (u : UserDoc) (o : OTPData)
    (t now : Nat) (code : String) (emailSent : Bool)
    (hprov : u.authProvider = AuthProvider.email)
    (hver : u.isEmailVerified = true) (ho : u.otp = some o)
    (hla : o.lastAttemptAt = some t) (hlt : now - t < thirtySecondsInMs) :
    (AuthController.signin (some u) now code emailSent).err =
        some (AuthErr.otpRateLimited (remainingSecondsOf (now - t))) ∧
    (AuthController.resendOTP (some u) now code emailSent).err =
        some (AuthErr.otpRateLimited (remainingSecondsOf (now - t))) ∧
    0 < remainingSecondsOf (now - t) ∧
    (∀ (v v2 : UserDoc) (n2 : Nat) (c : String) (es : Bool),
        AuthController.signin (some v) n2 c es = { err := none, user := some v2 } →
        ∃ o2, v2.otp = some o2 ∧ o2.lastAttemptAt = some n2) ∧
    (∀ (v v2 : UserDoc) (n2 : Nat) (c : String) (es : Bool),
        AuthController.resendOTP (some v) n2 c es = { err := none, user := some v2 } →
        ∃ o2, v2.otp = some o2 ∧ o2.lastAttemptAt = some n2) := by
  refine ⟨?_, ?_, ?_, ?_, ?_⟩
  · simp [AuthController.signin, hprov, hver, ho, hla, hlt]
  · simp [AuthController.resendOTP, hprov, ho, hla, hlt]
  · unfold remainingSecondsOf
    unfold thirtySecondsInMs at hlt ⊢
    have h1 : 1000 ≤ 30 * 1000 - (now - t) + 999 := by omega
    exact (Nat.one_le_div_iff (by norm_num)).mpr h1
  · intro v v2 n2 c es h
    unfold AuthController.signin at h
    by_cases hg : (v.authProvider == AuthProvider.google) = true
    · simp [hg] at h
    · simp only [hg, Bool.false_eq_true, if_false] at h
      by_cases hv : v.isEmailVerified
      · simp only [hv, Bool.not_true, Bool.false_eq_true, if_false] at h
        split at h
        · simp at h
        · by_cases hes : es
          · simp only [hes, if_true, AuthOutcome.mk.injEq, Option.some.injEq] at h
            obtain ⟨-, h2⟩ := h
            subst h2
            exact ⟨_, rfl, rfl⟩
          · simp [hes] at h
      · simp [hv] at h
  · intro v v2 n2 c es h
    unfold AuthController.resendOTP at h
    by_cases hg : (v.authProvider == AuthProvider.google) = true
    · simp [hg] at h
    · simp only [hg, Bool.false_eq_true, if_false] at h
      split at h
      · simp at h
      · by_cases hes : es
        · simp only [hes, if_true, AuthOutcome.mk.injEq, Option.some.injEq] at h
          obtain ⟨-, h2⟩ := h
          subst h2
          exact ⟨_, rfl, rfl⟩
        · simp [hes] at h

/-- A verified email-mode user whose OTP was generated at time 0. -/
def cooldownUser : UserDoc :=
  { baseUser with
    isEmailVerified := true,
    otp := some { code := some "999999", expiresAt := some 600000, isUsed := false,
                  attempts := 0, lastAttemptAt := some 0 } }

/-- C7 witness: both paths at time 15000, fifteen seconds after the OTP was
stamped. -/
theorem c7_shared_thirty_second_cooldown_witness :
    (AuthController.signin (some cooldownUser) 15000 "888888" true).err =
        some (AuthErr.otpRateLimited (remainingSecondsOf (15000 - 0))) ∧
    (AuthController.resendOTP (some cooldownUser) 15000 "888888" true).err =
        some (AuthErr.otpRateLimited (remainingSecondsOf (15000 - 0))) ∧
    0 < remainingSecondsOf (15000 - 0) ∧
    (∀ (v v2 : UserDoc) (n2 : Nat) (c : String) (es : Bool),
        AuthController.signin (some v) n2 c es = { err := none, user := some v2 } →
        ∃ o2, v2.otp = some o2 ∧ o2.lastAttemptAt = some n2) ∧
    (∀ (v v2 : UserDoc) (n2 : Nat) (c : String) (es : Bool),
        AuthController.resendOTP (some v) n2 c es = { err := none, user := some v2 } →
        ∃ o2, v2.otp = some o2 ∧ o2.lastAttemptAt = some n2) :=
  c7_shared_thirty_second_cooldown cooldownUser
    { code := some "999999", expiresAt := some 600000, isUsed := false,
      attempts := 0, lastAttemptAt := some 0 }
    0 15000 "888888" true rfl rfl rfl rfl (by decide)
